import Mathlib

/-!
Verification of the YelpCamp CRUD application (src/routes/campgrounds.js,
which concatenates the campgrounds router, the reviews router, a single-file
app and a router-based app) against its specification.

The document store is embedded as association lists keyed by `Nat`
identifiers; each route handler of the source becomes a Lean function from
the store and the request data to the new store and a pipeline outcome.
-/

namespace YelpCamp

/-- Review document, persisted shape `(id, rating, body)` (spec section 6). -/
structure Review where
  rating : Int
  body : String
  deriving DecidableEq

/-- Campground document: title, location, description, price and the ordered
list of owned review identifiers (spec section 6). -/
structure Campground where
  title : String
  location : String
  description : String
  price : Int
  reviews : List Nat
  deriving DecidableEq

/-- The document store: one collection per entity plus the next identifier
the store will assign. -/
structure Store where
  camps : List (Nat × Campground)
  revs : List (Nat × Review)
  nextId : Nat
  deriving DecidableEq

/-- Errors carry an optional message and an optional HTTP status code, as a
JavaScript error object does; `ExpressError(msg, code)` sets both, a runtime
error (TypeError) sets only the message. -/
structure ExpressErr where
  message : Option String
  statusCode : Option Nat
  deriving DecidableEq

/-- A runtime JavaScript error: it has a message but no `statusCode` field. -/
def jsTypeError (m : String) : ExpressErr := ⟨some m, none⟩

/-- An HTTP response: a rendered view (200), a redirect (302), or the error
page rendered by the error-handling middleware. -/
inductive Response where
  | render (view : String)
  | redirect (loc : String)
  | errorPage (status : Nat) (message : String)
  deriving DecidableEq

/-- The HTTP status of a response. -/
def Response.status : Response → Nat
  | .render _ => 200
  | .redirect _ => 302
  | .errorPage s _ => s

/-- Outcome of a route stage: a response was sent, an error was forwarded to
the error-handling middleware via next(err), or a rejected promise escaped
unhandled (no middleware ever sees it). -/
inductive Outcome where
  | respond (r : Response)
  | forwardError (e : ExpressErr)
  | unhandledRejection (e : ExpressErr)
  deriving DecidableEq

/-- Embeds `Model.findById(i)`: the entry with identifier `i`, if any. -/
def findById {α : Type} (l : List (Nat × α)) (i : Nat) : Option α :=
  (l.find? (fun p => p.1 == i)).map (fun p => p.2)

/-- Embeds a store update of the document with identifier `i` (the store
holds at most one document per identifier). -/
def updateAssoc {α : Type} (l : List (Nat × α)) (i : Nat) (f : α → α) :
    List (Nat × α) :=
  l.map (fun p => if p.1 == i then (p.1, f p.2) else p)

/-- Modelled from the spec: utils/catchAsync is not under src/. Per the spec
(section 4.2) it adapts a fallible asynchronous operation so that a failure
is forwarded into the framework error-propagation channel. -/
def catchAsync (h : Except ExpressErr Response) : Outcome :=
  match h with
  | .ok r => .respond r
  | .error e => .forwardError e

/-- An async handler passed to the framework without the wrapper: a failure
escapes as an unhandled rejection instead of reaching the error channel. -/
def rawAsync (h : Except ExpressErr Response) : Outcome :=
  match h with
  | .ok r => .respond r
  | .error e => .unhandledRejection e

/-- The error-handling middleware (src lines 233-237 and 290-294): status
defaults to 500 when the error has none, the message defaults to
"Oh No, Something Went Wrong!" when the error message is falsy. -/
def errorHandler (e : ExpressErr) : Response :=
  let statusCode := e.statusCode.getD 500
  let msg :=
    match e.message with
    | none => "Oh No, Something Went Wrong!"
    | some m => if m = "" then "Oh No, Something Went Wrong!" else m
  .errorPage statusCode msg

/-- The response the client receives for an outcome: a sent response as is, a
forwarded error through the error-handling middleware, and no response at all
for an unhandled rejection. -/
def respondOutcome : Outcome → Option Response
  | .respond r => some r
  | .forwardError e => some (errorHandler e)
  | .unhandledRejection _ => none

/-- Incoming campground form payload; a missing field is `none`. -/
structure CampgroundPayload where
  title : Option String
  location : Option String
  description : Option String
  price : Option Int
  deriving DecidableEq

/-- Incoming review form payload; a missing field is `none`. -/
structure ReviewPayload where
  rating : Option Int
  body : Option String
  deriving DecidableEq

/-- Modelled from the spec: schemas.js (the Joi `campgroundSchema`) is not
under src/. Per the spec (section 4.3) the schema declares the required
fields of a Campground and validation returns either valid (`none`) or the
collected list of field-level violation messages. -/
def campgroundSchemaValidate (p : CampgroundPayload) : Option (List String) :=
  let errs :=
    (if p.title.isNone then ["campground.title is required"] else []) ++
    (if p.location.isNone then ["campground.location is required"] else []) ++
    (if p.description.isNone then ["campground.description is required"] else []) ++
    (if p.price.isNone then ["campground.price is required"] else [])
  if errs.isEmpty then none else some errs

/-- Modelled from the spec: schemas.js (the Joi `reviewSchema`) is not under
src/. Per the spec a Review requires a bounded numeric rating and a body;
the exact bounds are not fixed by the spec, 1..5 is used here. -/
def reviewSchemaValidate (p : ReviewPayload) : Option (List String) :=
  let errs :=
    (match p.rating with
     | none => ["review.rating is required"]
     | some r => if r < 1 ∨ 5 < r then ["review.rating is out of bounds"] else []) ++
    (if p.body.isNone then ["review.body is required"] else [])
  if errs.isEmpty then none else some errs

/-- The validateCampground middleware (src lines 9-17 and 139-147): on a
violation it throws `ExpressError(messages joined with a comma, 400)`,
otherwise it calls next(). -/
def validateCampground (p : CampgroundPayload) : Except ExpressErr Unit :=
  match campgroundSchemaValidate p with
  | some details => .error ⟨some (String.intercalate "," details), some 400⟩
  | none => .ok ()

/-- The validateReview middleware (src lines 74-82 and 150-158): same shape
as validateCampground, over the review schema. -/
def validateReview (p : ReviewPayload) : Except ExpressErr Unit :=
  match reviewSchemaValidate p with
  | some details => .error ⟨some (String.intercalate "," details), some 400⟩
  | none => .ok ()

/-- `new Campground(req.body.campground)`: a fresh record from the payload
with an empty review list. Only called on validated payloads, where every
field is present. -/
def campgroundFromPayload (p : CampgroundPayload) : Campground :=
  ⟨p.title.getD "", p.location.getD "", p.description.getD "", p.price.getD 0, []⟩

/-- `new Review(req.body.review)`. -/
def reviewFromPayload (p : ReviewPayload) : Review :=
  ⟨p.rating.getD 0, p.body.getD ""⟩

/-- POST /campgrounds (src lines 31-35 and 177-181): validation stage, then
the wrapped handler builds the record, saves it (the store assigns the next
identifier) and redirects to the new detail page. A synchronous throw in the
validation middleware is forwarded by the framework to the error channel. -/
def postCampgrounds (s : Store) (p : CampgroundPayload) : Store × Outcome :=
  match validateCampground p with
  | .error e => (s, .forwardError e)
  | .ok _ =>
    let id := s.nextId
    let c := campgroundFromPayload p
    ({ s with camps := s.camps ++ [(id, c)], nextId := s.nextId + 1 },
     catchAsync (.ok (.redirect ("/campgrounds/" ++ toString id))))

/-- A campground with its review references resolved to full Review values
(`.populate('reviews')`). -/
structure PopulatedCampground where
  title : String
  location : String
  description : String
  price : Int
  reviews : List Review
  deriving DecidableEq

/-- `findById(id).populate('reviews')` applied to a found record. -/
def populate (s : Store) (c : Campground) : PopulatedCampground :=
  ⟨c.title, c.location, c.description, c.price, c.reviews.filterMap (findById s.revs)⟩

/-- Modelled from the spec: the campgrounds/show view template is not under
src/. Per the spec the detail page renders the record with its reviews
resolved, so rendering dereferences the campground and throws a TypeError
when the handler passes it the null lookup result. -/
def renderShow : Option PopulatedCampground → Except ExpressErr Response
  | none => .error (jsTypeError "Cannot read properties of null")
  | some _ => .ok (.render "campgrounds/show")

/-- GET /campgrounds/:id (src lines 38-41 and 184-187): find and populate,
then render the detail page; no null check on the lookup result. -/
def showCampground (s : Store) (id : Nat) : Store × Outcome :=
  (s, catchAsync (renderShow ((findById s.camps id).map (populate s))))

/-- `findByIdAndUpdate(id, spread of payload)` merges the payload fields
into the record. -/
def mergePayload (p : CampgroundPayload) (c : Campground) : Campground :=
  { c with
    title := p.title.getD c.title
    location := p.location.getD c.location
    description := p.description.getD c.description
    price := p.price.getD c.price }

/-- PUT /campgrounds/:id (src lines 50-54 and 196-200): validation stage,
then findByIdAndUpdate and a redirect built from `campground._id`. When the
id is absent the lookup is null and reading `._id` throws a TypeError, which
catchAsync forwards; the store is untouched in that case. -/
def putCampground (s : Store) (id : Nat) (p : CampgroundPayload) :
    Store × Outcome :=
  match validateCampground p with
  | .error e => (s, .forwardError e)
  | .ok _ =>
    match findById s.camps id with
    | none => (s, catchAsync (.error (jsTypeError "Cannot read properties of null")))
    | some _ =>
      ({ s with camps := updateAssoc s.camps id (mergePayload p) },
       catchAsync (.ok (.redirect ("/campgrounds/" ++ toString id))))

/-- Modelled from the spec: models/campground.js is not under src/, so the
store-side behaviour of `Campground.findByIdAndDelete(id)` is taken from the
spec (section 4.4): "Delete Campground: remove by id; must also remove every
Review it owns". Absent id: the delete is a silent no-op. -/
def campDeleteById (s : Store) (id : Nat) : Store :=
  match findById s.camps id with
  | none => s
  | some c =>
    { s with
      camps := s.camps.filter (fun q => !(q.1 == id))
      revs := s.revs.filter (fun q => !(c.reviews.contains q.1)) }

/-- DELETE /campgrounds/:id (src lines 57-61 and 203-207): delete by id and
redirect to the index, unconditionally. -/
def deleteCampground (s : Store) (id : Nat) : Store × Outcome :=
  (campDeleteById s id, catchAsync (.ok (.redirect "/campgrounds")))

/-- The shared core of the review-creation handlers (src lines 85-93 and
210-217): find the campground (no null check: `campground.reviews.push`
throws on null before any save), create the review, push its fresh
identifier onto the campground list, save both. -/
def createReviewCore (s : Store) (id : Nat) (p : ReviewPayload) :
    Store × Except ExpressErr Unit :=
  match findById s.camps id with
  | none => (s, .error (jsTypeError "Cannot read properties of null"))
  | some _ =>
    let rid := s.nextId
    ({ s with
        camps := updateAssoc s.camps id (fun c => { c with reviews := c.reviews ++ [rid] })
        revs := s.revs ++ [(rid, reviewFromPayload p)]
        nextId := s.nextId + 1 },
     .ok ())

/-- POST /campgrounds/:id/reviews in the single-file app (src lines
210-217): validation, the shared core, then a redirect to the detail page. -/
def postReviewApp (s : Store) (id : Nat) (p : ReviewPayload) : Store × Outcome :=
  match validateReview p with
  | .error e => (s, .forwardError e)
  | .ok _ =>
    match createReviewCore s id p with
    | (t, .ok _) => (t, catchAsync (.ok (.redirect ("/campgrounds/" ++ toString id))))
    | (t, .error e) => (t, catchAsync (.error e))

/-- POST /campgrounds/:id/reviews through the mounted reviews router (src
lines 85-93, mounted by the router-based app at lines 276-277). After both
saves the handler calls `req.flash`, but the router-based app installs only
body parsing and method override (src lines 272-274), so `req.flash` is
undefined and the call throws a TypeError; the redirect is never reached and
the mutations are not rolled back. -/
def postReviewRouterApp (s : Store) (id : Nat) (p : ReviewPayload) :
    Store × Outcome :=
  match validateReview p with
  | .error e => (s, .forwardError e)
  | .ok _ =>
    match createReviewCore s id p with
    | (t, .ok _) => (t, catchAsync (.error (jsTypeError "req.flash is not a function")))
    | (t, .error e) => (t, catchAsync (.error e))

/-- DELETE /campgrounds/:id/reviews/:reviewId (src lines 96-101 and
220-225): `$pull` the review id from the campground list (a silent no-op
when the campground or the id is absent), delete the review record, redirect
to the detail page. -/
def deleteReview (s : Store) (id rid : Nat) : Store × Outcome :=
  ({ s with
      camps := updateAssoc s.camps id
        (fun c => { c with reviews := c.reviews.filter (fun r => !(r == rid)) })
      revs := s.revs.filter (fun q => !(q.1 == rid)) },
   catchAsync (.ok (.redirect ("/campgrounds/" ++ toString id))))

/-- The referential invariant (spec section 3): every review identifier in a
campground review list corresponds to an existing review record. -/
def refInvariant (s : Store) : Prop :=
  ∀ q ∈ s.camps, ∀ r ∈ q.2.reviews, ∃ t ∈ s.revs, t.1 = r

instance (s : Store) : Decidable (refInvariant s) := by
  unfold refInvariant; infer_instance

/-- A segment of a route path pattern: a literal segment or a `:param`. -/
inductive Seg where
  | lit (s : String)
  | param
  deriving DecidableEq

/-- A registered route: method, path pattern, whether its handler performs a
store operation, and whether that handler is wrapped in catchAsync. -/
structure Route where
  method : String
  pattern : List Seg
  storeOp : Bool
  wrapped : Bool
  deriving DecidableEq

/-- Pattern matching of a path (split into segments) against a pattern. -/
def segsMatch : List Seg → List String → Bool
  | [], [] => true
  | .lit s :: ps, t :: ts => s == t && segsMatch ps ts
  | .param :: ps, _ :: ts => segsMatch ps ts
  | _, _ => false

/-- Does a route match the request method and path. -/
def routeMatches (r : Route) (m : String) (path : List String) : Bool :=
  r.method == m && segsMatch r.pattern path

/-- The routes registered by the single-file app (src lines 160-225), in
registration order, with their store-operation and catchAsync flags read off
the source. GET /campgrounds (src lines 166-169) performs `Campground.find`
in an async handler passed directly to `app.get`, without catchAsync. -/
def monolithicRoutes : List Route :=
  [⟨"GET", [], false, false⟩,
   ⟨"GET", [.lit "campgrounds"], true, false⟩,
   ⟨"GET", [.lit "campgrounds", .lit "new"], false, false⟩,
   ⟨"POST", [.lit "campgrounds"], true, true⟩,
   ⟨"GET", [.lit "campgrounds", .param], true, true⟩,
   ⟨"GET", [.lit "campgrounds", .param, .lit "edit"], true, true⟩,
   ⟨"PUT", [.lit "campgrounds", .param], true, true⟩,
   ⟨"DELETE", [.lit "campgrounds", .param], true, true⟩,
   ⟨"POST", [.lit "campgrounds", .param, .lit "reviews"], true, true⟩,
   ⟨"DELETE", [.lit "campgrounds", .param, .lit "reviews", .param], true, true⟩]

/-- The routes of the router-based app (src lines 276-282): the campgrounds
router (src lines 20-61) mounted at /campgrounds, the reviews router (src
lines 85-101) mounted at /campgrounds/:id/reviews, and the home route. Every
handler that touches the store is wrapped in catchAsync there. -/
def routerAppRoutes : List Route :=
  [⟨"GET", [.lit "campgrounds"], true, true⟩,
   ⟨"GET", [.lit "campgrounds", .lit "new"], false, false⟩,
   ⟨"POST", [.lit "campgrounds"], true, true⟩,
   ⟨"GET", [.lit "campgrounds", .param], true, true⟩,
   ⟨"GET", [.lit "campgrounds", .param, .lit "edit"], true, true⟩,
   ⟨"PUT", [.lit "campgrounds", .param], true, true⟩,
   ⟨"DELETE", [.lit "campgrounds", .param], true, true⟩,
   ⟨"POST", [.lit "campgrounds", .param, .lit "reviews"], true, true⟩,
   ⟨"DELETE", [.lit "campgrounds", .param, .lit "reviews", .param], true, true⟩,
   ⟨"GET", [], false, false⟩]

/-- The catch-all stage `app.all('*')` (src lines 228-230 and 285-287): when
no registered route matched the request, it forwards
`ExpressError('Page Not Found', 404)`; when some route matched, that route
consumed the request and the catch-all never runs (`none` here). -/
def catchAllStage (m : String) (path : List String) : Option Outcome :=
  if monolithicRoutes.any (fun r => routeMatches r m path) then none
  else some (.forwardError ⟨some "Page Not Found", some 404⟩)

/-- The response produced for a request that reaches the catch-all stage. -/
def appFallbackResponse (m : String) (path : List String) : Option Response :=
  match catchAllStage m path with
  | some o => respondOutcome o
  | none => none

/-- Concrete fixture: review records 10 and 11. -/
def rvA : Review := ⟨5, "Great"⟩

/-- Concrete fixture: a second review record. -/
def rvB : Review := ⟨3, "Fine"⟩

/-- Concrete fixture: campground 1, owning review 10. -/
def campA : Campground := ⟨"Pine Ridge", "CO", "Tall pines", 25, [10]⟩

/-- Concrete fixture: campground 2, owning review 11. -/
def campB : Campground := ⟨"Lakeside", "OR", "By the lake", 30, [11]⟩

/-- Concrete fixture store with two campgrounds and their two reviews. -/
def exStore : Store := ⟨[(1, campA), (2, campB)], [(10, rvA), (11, rvB)], 20⟩

/-- Concrete fixture: a campground whose review list is empty. -/
def exStoreEmptyList : Store := ⟨[(1, ⟨"Bare", "NV", "Dust", 5, []⟩)], [], 20⟩

/-- Concrete fixture: a fully valid campground payload. -/
def pGood : CampgroundPayload := ⟨some "Pine Ridge", some "CO", some "Tall pines", some 25⟩

/-- Concrete fixture: a campground payload with every field missing. -/
def pBad : CampgroundPayload := ⟨none, none, none, none⟩

/-- Concrete fixture: a valid review payload. -/
def qGood : ReviewPayload := ⟨some 5, some "Great"⟩

/-- Concrete fixture: a review payload with both fields missing. -/
def qBad : ReviewPayload := ⟨none, none⟩

/-! ## Helper lemmas about the store primitives -/

theorem findById_filter_key_ne {α : Type} (l : List (Nat × α)) (i : Nat) :
    findById (l.filter (fun q => !(q.1 == i))) i = none := by
  have hfind :
      List.find? (fun p => p.1 == i) (l.filter (fun q => !(q.1 == i))) = none := by
    rw [List.find?_eq_none]
    intro x hx
    have h := (List.mem_filter.mp hx).2
    simp only [Bool.not_eq_true] at h ⊢
    simpa using h
  simp [findById, hfind]

theorem findById_filter_not_contains {α : Type} (l : List (Nat × α))
    (ids : List Nat) (r : Nat) (hr : r ∈ ids) :
    findById (l.filter (fun q => !(ids.contains q.1))) r = none := by
  have hfind :
      List.find? (fun p => p.1 == r) (l.filter (fun q => !(ids.contains q.1))) = none := by
    rw [List.find?_eq_none]
    intro x hx
    have h : x.1 ∉ ids := by simpa using (List.mem_filter.mp hx).2
    intro hbeq
    have hx1 : x.1 = r := by simpa using hbeq
    exact h (hx1 ▸ hr)
  unfold findById
  rw [hfind]
  rfl

theorem findById_updateAssoc {α : Type} (l : List (Nat × α)) (i : Nat)
    (f : α → α) :
    findById (updateAssoc l i f) i = (findById l i).map f := by
  induction l with
  | nil => rfl
  | cons p l ih =>
    by_cases h : p.1 = i
    · simp [updateAssoc, findById, List.find?, h]
    · have hb : (p.1 == i) = false := by simpa using h
      simp only [updateAssoc, List.map_cons, hb, Bool.false_eq_true, if_false,
        findById, List.find?, h] at ih ⊢
      simpa [updateAssoc, hb] using ih

theorem length_filter_ne_of_count_one (l : List Nat) (rid : Nat)
    (h : l.count rid = 1) :
    (l.filter (fun r => !(r == rid))).length + 1 = l.length := by
  induction l with
  | nil => simp at h
  | cons a l ih =>
    by_cases ha : a = rid
    · subst ha
      have hc : l.count a = 0 := by
        have := h
        simp [List.count_cons] at this
        omega
      have hfl : l.filter (fun r => !(r == a)) = l := by
        apply List.filter_eq_self.mpr
        intro x hx
        have hxne : x ≠ a := by
          intro hxa
          subst hxa
          have := List.count_pos_iff.mpr hx
          omega
        simpa using hxne
      simp [hfl]
    · have hb : (a == rid) = false := by simpa using ha
      have hcount : l.count rid = 1 := by
        simpa [List.count_cons, hb] using h
      have := ih hcount
      simp only [List.filter_cons, hb, Bool.not_false, if_true, List.length_cons]
      omega

theorem campDeleteById_absent (s : Store) (id : Nat)
    (h : findById s.camps id = none) : campDeleteById s id = s := by
  unfold campDeleteById
  rw [h]

/-! ## Claim theorems -/

/-- Claim C9: for every id, known or not, DELETE /campgrounds/:id responds
with a redirect to /campgrounds (never a 404), and deleting twice leaves the
store in the same state as deleting once. -/
theorem deleteCampground_redirect_idempotent (s : Store) (id : Nat) :
    (deleteCampground s id).2 = .respond (.redirect "/campgrounds") ∧
    campDeleteById (campDeleteById s id) id = campDeleteById s id := by
  refine ⟨rfl, ?_⟩
  cases hc : findById s.camps id with
  | none =>
    rw [campDeleteById_absent s id hc]
    exact campDeleteById_absent s id hc
  | some c =>
    apply campDeleteById_absent
    unfold campDeleteById
    rw [hc]
    exact findById_filter_key_ne s.camps id

/-- Claim C5: the error presenter responds with the error statusCode,
defaulting to 500 when none is set, and renders the error message, which
defaults to "Oh No, Something Went Wrong!" when the error carries none. -/
theorem errorHandler_defaults (e : ExpressErr) :
    (errorHandler e).status = e.statusCode.getD 500 ∧
    (e.message = none →
      errorHandler e = .errorPage (e.statusCode.getD 500) "Oh No, Something Went Wrong!") ∧
    (∀ m, e.message = some m → m ≠ "" →
      errorHandler e = .errorPage (e.statusCode.getD 500) m) := by
  refine ⟨?_, ?_, ?_⟩
  · cases h : e.message with
    | none => simp [errorHandler, Response.status, h]
    | some m => by_cases hm : m = "" <;> simp [errorHandler, Response.status, h, hm]
  · intro h
    simp [errorHandler, h]
  · intro m h hm
    simp [errorHandler, h, hm]

/-- Witness for C5 at two concrete errors: one fully defaulted, one with an
explicit message and status. -/
theorem errorHandler_defaults_witness :
    errorHandler ⟨none, none⟩ = .errorPage 500 "Oh No, Something Went Wrong!" ∧
    errorHandler ⟨some "boom", some 404⟩ = .errorPage 404 "boom" :=
  ⟨(errorHandler_defaults ⟨none, none⟩).2.1 rfl,
   (errorHandler_defaults ⟨some "boom", some 404⟩).2.2 "boom" rfl (by decide)⟩

/-- Claim C6: a request matching no registered route reaches the catch-all
stage, which forwards a 404 "Page Not Found" ExpressError to the presenter,
so the client receives status 404 with that message. -/
theorem unmatched_route_404 (m : String) (path : List String)
    (h : monolithicRoutes.any (fun r => routeMatches r m path) = false) :
    appFallbackResponse m path = some (.errorPage 404 "Page Not Found") := by
  have hmsg : respondOutcome (.forwardError ⟨some "Page Not Found", some 404⟩) =
      some (.errorPage 404 "Page Not Found") := by decide
  simp [appFallbackResponse, catchAllStage, h, hmsg]

/-- Witness for C6 at a concrete unmatched request. -/
theorem unmatched_route_404_witness :
    appFallbackResponse "GET" ["nothing", "here"] =
      some (.errorPage 404 "Page Not Found") :=
  unmatched_route_404 "GET" ["nothing", "here"] (by decide)

/-- Claim C3 (refuted on the single-file app): exactly one registered route
whose handler performs a store operation lacks the catchAsync wrapper, the
GET /campgrounds handler of the single-file app; in the router-based app
every store-touching handler is wrapped; and an unwrapped failing handler
produces no response at all (unhandled rejection) while a wrapped one
reaches the error presenter. -/
theorem unwrapped_store_handler :
    (monolithicRoutes.filter (fun r => r.storeOp && !r.wrapped) =
      [⟨"GET", [Seg.lit "campgrounds"], true, false⟩]) ∧
    (routerAppRoutes.all (fun r => !r.storeOp || r.wrapped) = true) ∧
    (∀ e, respondOutcome (rawAsync (.error e)) = none ∧
          respondOutcome (catchAsync (.error e)) = some (errorHandler e)) := by
  refine ⟨by decide, by decide, fun e => ⟨rfl, rfl⟩⟩

/-- Claim C7: a valid payload posted to /campgrounds appends exactly one new
campground record built from the payload, under the identifier the store
assigns, leaves reviews untouched, and redirects to the new detail page. -/
theorem post_campgrounds_creates (s : Store) (p : CampgroundPayload)
    (hvalid : campgroundSchemaValidate p = none) :
    (postCampgrounds s p).1.camps = s.camps ++ [(s.nextId, campgroundFromPayload p)] ∧
    (postCampgrounds s p).1.revs = s.revs ∧
    (postCampgrounds s p).1.nextId = s.nextId + 1 ∧
    (postCampgrounds s p).2 =
      .respond (.redirect ("/campgrounds/" ++ toString s.nextId)) := by
  simp [postCampgrounds, validateCampground, hvalid, catchAsync]

/-- Witness for C7: creating from the valid fixture payload in the fixture
store. -/
theorem post_campgrounds_creates_witness :
    (postCampgrounds exStore pGood).1.camps =
      exStore.camps ++ [(exStore.nextId, campgroundFromPayload pGood)] ∧
    (postCampgrounds exStore pGood).1.revs = exStore.revs ∧
    (postCampgrounds exStore pGood).1.nextId = exStore.nextId + 1 ∧
    (postCampgrounds exStore pGood).2 =
      .respond (.redirect ("/campgrounds/" ++ toString exStore.nextId)) :=
  post_campgrounds_creates exStore pGood (by decide)

/-- Claim C2: on a schema violation both validation middlewares throw an
ExpressError with status 400 whose message joins all violation messages with
a comma, and the pipeline halts with the store untouched; on a valid payload
control passes to the next stage. -/
theorem validation_middleware (p : CampgroundPayload) (q : ReviewPayload)
    (s : Store) (id : Nat) :
    (∀ errs, campgroundSchemaValidate p = some errs →
      validateCampground p = .error ⟨some (String.intercalate "," errs), some 400⟩ ∧
      postCampgrounds s p =
        (s, .forwardError ⟨some (String.intercalate "," errs), some 400⟩)) ∧
    (campgroundSchemaValidate p = none → validateCampground p = .ok ()) ∧
    (∀ errs, reviewSchemaValidate q = some errs →
      validateReview q = .error ⟨some (String.intercalate "," errs), some 400⟩ ∧
      postReviewApp s id q =
        (s, .forwardError ⟨some (String.intercalate "," errs), some 400⟩)) ∧
    (reviewSchemaValidate q = none → validateReview q = .ok ()) := by
  refine ⟨?_, ?_, ?_, ?_⟩
  · intro errs h
    exact ⟨by simp [validateCampground, h],
           by simp [postCampgrounds, validateCampground, h]⟩
  · intro h
    simp [validateCampground, h]
  · intro errs h
    exact ⟨by simp [validateReview, h],
           by simp [postReviewApp, validateReview, h]⟩
  · intro h
    simp [validateReview, h]

/-- Witness for C2: the all-missing payloads are rejected with the joined
messages and the store untouched; the valid payloads pass validation. -/
theorem validation_middleware_witness :
    validateCampground pBad = .error ⟨some (String.intercalate ","
      ["campground.title is required", "campground.location is required",
       "campground.description is required", "campground.price is required"]), some 400⟩ ∧
    postCampgrounds exStore pBad = (exStore, .forwardError ⟨some (String.intercalate ","
      ["campground.title is required", "campground.location is required",
       "campground.description is required", "campground.price is required"]), some 400⟩) ∧
    validateCampground pGood = .ok () ∧
    validateReview qBad = .error ⟨some (String.intercalate ","
      ["review.rating is required", "review.body is required"]), some 400⟩ ∧
    validateReview qGood = .ok () :=
  ⟨((validation_middleware pBad qBad exStore 1).1 _ (by decide)).1,
   ((validation_middleware pBad qBad exStore 1).1 _ (by decide)).2,
   (validation_middleware pGood qBad exStore 1).2.1 (by decide),
   ((validation_middleware pGood qBad exStore 1).2.2.1 _ (by decide)).1,
   (validation_middleware pGood qGood exStore 1).2.2.2 (by decide)⟩

/-- Claim C4: for an id with no campground, the show pipeline and the update
pipeline both crash on the null lookup result (no null check): the TypeError
is forwarded to the presenter, which produces a 500 page, not a 404, and the
update leaves the store untouched. -/
theorem unknown_id_crashes (s : Store) (id : Nat) (p : CampgroundPayload)
    (habs : findById s.camps id = none)
    (hvalid : campgroundSchemaValidate p = none) :
    respondOutcome (showCampground s id).2 =
      some (.errorPage 500 "Cannot read properties of null") ∧
    respondOutcome (putCampground s id p).2 =
      some (.errorPage 500 "Cannot read properties of null") ∧
    (putCampground s id p).1 = s := by
  have hmsg : errorHandler (jsTypeError "Cannot read properties of null") =
      .errorPage 500 "Cannot read properties of null" := by decide
  refine ⟨?_, ?_, ?_⟩
  · simp [showCampground, habs, renderShow, catchAsync, respondOutcome, hmsg]
  · simp [putCampground, validateCampground, hvalid, habs, catchAsync,
      respondOutcome, hmsg]
  · simp [putCampground, validateCampground, hvalid, habs]

/-- Witness for C4 at id 99, absent from the fixture store. -/
theorem unknown_id_crashes_witness :
    respondOutcome (showCampground exStore 99).2 =
      some (.errorPage 500 "Cannot read properties of null") ∧
    respondOutcome (putCampground exStore 99 pGood).2 =
      some (.errorPage 500 "Cannot read properties of null") ∧
    (putCampground exStore 99 pGood).1 = exStore :=
  unknown_id_crashes exStore 99 pGood (by decide) (by decide)

/-- Claim C10: posting a valid review to an existing campground through the
router-based app persists the review and the updated campground, then the
handler calls the missing req.flash and fails: the client gets the 500 error
page instead of the redirect, while both mutations remain in the store. -/
theorem router_review_flash_error (s : Store) (id : Nat) (p : ReviewPayload)
    (c : Campground)
    (hvalid : reviewSchemaValidate p = none)
    (hc : findById s.camps id = some c) :
    respondOutcome (postReviewRouterApp s id p).2 =
      some (.errorPage 500 "req.flash is not a function") ∧
    (postReviewRouterApp s id p).1.revs = s.revs ++ [(s.nextId, reviewFromPayload p)] ∧
    findById (postReviewRouterApp s id p).1.camps id =
      some { c with reviews := c.reviews ++ [s.nextId] } := by
  have hmsg : errorHandler (jsTypeError "req.flash is not a function") =
      .errorPage 500 "req.flash is not a function" := by decide
  have hfind := findById_updateAssoc s.camps id
    (fun c0 => { c0 with reviews := c0.reviews ++ [s.nextId] })
  rw [hc] at hfind
  refine ⟨?_, ?_, ?_⟩
  · simp [postReviewRouterApp, validateReview, hvalid, createReviewCore, hc,
      catchAsync, respondOutcome, hmsg]
  · simp [postReviewRouterApp, validateReview, hvalid, createReviewCore, hc]
  · simp only [postReviewRouterApp, validateReview, hvalid, createReviewCore, hc]
    simpa using hfind

/-- Witness for C10: a valid review posted to campground 1 of the fixture
store through the router-based app. -/
theorem router_review_flash_error_witness :
    respondOutcome (postReviewRouterApp exStore 1 qGood).2 =
      some (.errorPage 500 "req.flash is not a function") ∧
    (postReviewRouterApp exStore 1 qGood).1.revs =
      exStore.revs ++ [(exStore.nextId, reviewFromPayload qGood)] ∧
    findById (postReviewRouterApp exStore 1 qGood).1.camps 1 =
      some { campA with reviews := campA.reviews ++ [exStore.nextId] } :=
  router_review_flash_error exStore 1 qGood campA (by decide) (by decide)

/-- Claim C1: deleting a campground present in the store removes its record
and every review record its list references; if the referential invariant
held before and no other campground shares a listed review (each review is
owned by exactly one campground, spec section 3), the invariant holds after
the delete completes. -/
theorem delete_campground_cascades (s : Store) (id : Nat) (c : Campground)
    (hc : findById s.camps id = some c)
    (hinv : refInvariant s)
    (hown : ∀ q ∈ s.camps, q.1 ≠ id → ∀ r ∈ q.2.reviews, r ∉ c.reviews) :
    findById (deleteCampground s id).1.camps id = none ∧
    (∀ r ∈ c.reviews, findById (deleteCampground s id).1.revs r = none) ∧
    refInvariant (deleteCampground s id).1 := by
  have hstate : (deleteCampground s id).1 =
      { s with
        camps := s.camps.filter (fun q => !(q.1 == id))
        revs := s.revs.filter (fun q => !(c.reviews.contains q.1)) } := by
    simp [deleteCampground, campDeleteById, hc]
  refine ⟨?_, ?_, ?_⟩
  · rw [hstate]
    exact findById_filter_key_ne s.camps id
  · intro r hr
    rw [hstate]
    exact findById_filter_not_contains s.revs c.reviews r hr
  · rw [hstate]
    simp only [refInvariant]
    intro q hq r hr
    have hq1 := List.mem_filter.mp hq
    have hqs : q ∈ s.camps := hq1.1
    have hqid : q.1 ≠ id := by simpa using hq1.2
    obtain ⟨t, ht, h1⟩ := hinv q hqs r hr
    refine ⟨t, ?_, h1⟩
    apply List.mem_filter.mpr
    refine ⟨ht, ?_⟩
    have hnot : t.1 ∉ c.reviews := by
      rw [h1]
      exact hown q hqs hqid r hr
    simpa using hnot

/-- Witness for C1: deleting campground 1 of the fixture store removes it
and review 10, and the referential invariant survives. -/
theorem delete_campground_cascades_witness :
    findById (deleteCampground exStore 1).1.camps 1 = none ∧
    (∀ r ∈ campA.reviews, findById (deleteCampground exStore 1).1.revs r = none) ∧
    refInvariant (deleteCampground exStore 1).1 :=
  delete_campground_cascades exStore 1 campA (by decide) (by decide) (by decide)

/-- Counterexample to claim C8 as stated: it quantifies over every
campground id and review id, but deleting review 5 from campground 1 of a
store whose campground 1 references no reviews leaves the reference list
length unchanged, so the length does not decrease by exactly one. -/
theorem delete_review_no_decrease :
    ¬ (Option.map (fun n => n + 1)
        ((findById (deleteReview exStoreEmptyList 1 5).1.camps 1).map
          (fun c => c.reviews.length)) =
       (findById exStoreEmptyList.camps 1).map (fun c => c.reviews.length)) := by
  decide

/-- Claim C8 (amended): when the campground exists and the review id occurs
exactly once in its reference list, DELETE removes the id from the list,
deletes the review record, the list length decreases by exactly one, and
the handler redirects to the detail page. -/
theorem delete_review_removes (s : Store) (id rid : Nat) (c : Campground)
    (hc : findById s.camps id = some c)
    (hcount : c.reviews.count rid = 1) :
    findById (deleteReview s id rid).1.camps id =
      some { c with reviews := c.reviews.filter (fun r => !(r == rid)) } ∧
    rid ∉ (c.reviews.filter (fun r => !(r == rid))) ∧
    (c.reviews.filter (fun r => !(r == rid))).length + 1 = c.reviews.length ∧
    findById (deleteReview s id rid).1.revs rid = none ∧
    (deleteReview s id rid).2 = .respond (.redirect ("/campgrounds/" ++ toString id)) := by
  have hfind := findById_updateAssoc s.camps id
    (fun c0 => { c0 with reviews := c0.reviews.filter (fun r => !(r == rid)) })
  rw [hc] at hfind
  refine ⟨by simpa using hfind, ?_, ?_, ?_, rfl⟩
  · intro hmem
    have h := (List.mem_filter.mp hmem).2
    simp at h
  · exact length_filter_ne_of_count_one c.reviews rid hcount
  · exact findById_filter_key_ne s.revs rid

/-- Witness for C8 (amended): deleting review 10 from campground 1 of the
fixture store, whose list is exactly the singleton with review 10. -/
theorem delete_review_removes_witness :
    findById (deleteReview exStore 1 10).1.camps 1 =
      some { campA with reviews := campA.reviews.filter (fun r => !(r == 10)) } ∧
    10 ∉ (campA.reviews.filter (fun r => !(r == 10))) ∧
    (campA.reviews.filter (fun r => !(r == 10))).length + 1 = campA.reviews.length ∧
    findById (deleteReview exStore 1 10).1.revs 10 = none ∧
    (deleteReview exStore 1 10).2 = .respond (.redirect ("/campgrounds/" ++ toString 1)) :=
  delete_review_removes exStore 1 10 campA (by decide) (by decide)

end YelpCamp
